import Mathlib

/-! Visualizer (src/visualizer.js): a shallow embedding.

JavaScript numbers are modelled as elements of a linearly ordered field `α`
(exact arithmetic, no rounding).  The collaborators whose code lives in other
modules (`FrameTimer`, `analyzeFrequencyBands`) and the host facilities
(`Math`, `Date.now`, `window.innerWidth`, `requestAnimationFrame`) enter as
parameters.  The 2D context is modelled by the sequence of operations issued
on it.
-/

namespace Visualizer

/-! ## Values handed to the 2D context -/

/-- CSS colour strings built by the template literals of the source. -/
inductive Color (α : Type) where
  | rgba (r g b a : α)
  | hsl (h s l : α)
  | hsla (h s l a : α)

/-- Result of `createLinearGradient(x0, y0, x1, y1)` after its `addColorStop` calls,
stops listed in call order. -/
structure Gradient (α : Type) where
  x0 : α
  y0 : α
  x1 : α
  y1 : α
  stops : List (α × Color α)

/-- Value assigned to `fillStyle` or `strokeStyle`. -/
inductive Style (α : Type) where
  | color (c : Color α)
  | gradient (g : Gradient α)

/-- Operations issued on the 2D context `this.ctx`. -/
inductive CanvasOp (α : Type) where
  | setFillStyle (s : Style α)
  | fillRect (x y w h : α)
  | save
  | restore
  | translate (x y : α)
  | rotate (angle : α)
  | beginPath
  | moveTo (x y : α)
  | lineTo (x y : α)
  | closePath
  | setStrokeStyle (s : Style α)
  | setLineWidth (w : α)
  | stroke
  | fill
  | setShadowBlur (b : α)
  | setShadowColor (c : Color α)

/-- Object destructured by `drawPrism({ bass, mid, treble })`. -/
structure Bands (α : Type) where
  bass : α
  mid : α
  treble : α

/-- The members of the host `Math` object used by the source. -/
structure JsMath (α : Type) where
  cos : α → α
  sin : α → α
  PI : α

/-- Collaborators imported by the source: `Math`, the `FrameTimer` class
(`τ` is the type of its instances) and `analyzeFrequencyBands` (`σ` is the
type of a frequency snapshot; `none` is the `undefined` of a field never
assigned). -/
structure Env (α τ σ : Type) where
  math : JsMath α
  newFrameTimer : α → τ
  shouldDrawFrame : τ → α → Bool × τ
  analyzeFrequencyBands : Option σ → Bands α

/-- Instance fields of `Visualizer`; `width`, `height` are `this.canvas.width`
and `this.canvas.height`. -/
structure State (α τ σ : Type) where
  width : α
  height : α
  centerX : α
  centerY : α
  rotation : α
  frameTimer : τ
  isRunning : Bool
  frequencyData : Option σ

section Ops

variable {α τ σ : Type}

/-- The JavaScript `%` on numbers: the remainder takes the sign of the dividend. -/
def jsRem [LinearOrderedField α] [FloorRing α] (a b : α) : α :=
  a - b * (((if 0 ≤ a / b then ⌊a / b⌋ else ⌈a / b⌉ : ℤ)) : α)

/-- Method `resize()`, reading `window.innerWidth` and `window.innerHeight`. -/
def resize [LinearOrderedField α] (s : State α τ σ) (innerWidth innerHeight : α) :
    State α τ σ :=
  let s1 := { s with width := innerWidth }
  let s2 := { s1 with height := innerHeight }
  let s3 := { s2 with centerX := s2.width / 2 }
  { s3 with centerY := s3.height / 2 }

/-- Constructor `new Visualizer(canvas)`: the constructor calls `resize()` before the other
fields are assigned, so the initial extents of `canvas` are overwritten by the
viewport extents. -/
def new [LinearOrderedField α] (E : Env α τ σ) (innerWidth innerHeight : α) :
    State α τ σ :=
  { width := innerWidth
    height := innerHeight
    centerX := innerWidth / 2
    centerY := innerHeight / 2
    rotation := 0.04
    frameTimer := E.newFrameTimer 60
    isRunning := true
    frequencyData := none }

/-- Method `stop()`. -/
def stop (s : State α τ σ) : State α τ σ :=
  { s with isRunning := false }

/-- Method `updateFrequencyData(frequencyData)`. -/
def updateFrequencyData (s : State α τ σ) (frequencyData : σ) : State α τ σ :=
  { s with frequencyData := some frequencyData }

/-- Method `drawInnerPatterns(size, mid, treble)`; `now k` is the value of the `k`-th
call of `Date.now()` made while the frame is drawn. -/
def drawInnerPatterns [LinearOrderedField α] [FloorRing α] (M : JsMath α)
    (size mid treble : α) (now : Nat → α) : List (CanvasOp α) :=
  let triangles : Nat := 1
  let angleStep : α := (M.PI * 1) / (triangles : α)
  (List.range triangles).flatMap fun i =>
    let angle : α := (i : α) * angleStep
    let scale : α := 1 + (mid * 0.033)
    let shimmerEffect : α := M.sin (now (2 * i) * 0.002) * 0.2 + 0.8
    let gradient : Gradient α :=
      { x0 := 0, y0 := -size, x1 := 0, y1 := size
        stops :=
          [ (0, .hsla (jsRem (treble + 180) 360) 100 20 0.8),
            (0.5, .hsla (jsRem (mid + 270) 360) 90 15 0.6),
            (1, .hsla (jsRem (treble + 90) 360) 95 25 0.7),
            (0.2, .hsla 38 100 50 shimmerEffect),
            (0.7, .hsla 0 0 0 0.9),
            (0.9, .hsla 38 90 40 shimmerEffect) ] }
    [ .save,
      .rotate angle,
      .beginPath,
      .moveTo 0 (-size * scale),
      .lineTo (size * M.cos (M.PI / 6) * scale) (size * M.sin (M.PI / 6) * scale),
      .lineTo (-size * M.cos (M.PI / 6) * scale) (size * M.sin (M.PI / 6) * scale),
      .closePath,
      .setShadowBlur (15 + M.sin (now (2 * i + 1) * 0.003) * 10),
      .setShadowColor (.hsla treble 90 50 0.6),
      .setStrokeStyle (.color (.hsla mid 80 40 0.4)),
      .setLineWidth 2,
      .stroke,
      .setFillStyle (.gradient gradient),
      .fill,
      .restore ]

/-- Method `drawPrism({ bass, mid, treble })`. -/
def drawPrism [LinearOrderedField α] [FloorRing α] (M : JsMath α)
    (s : State α τ σ) (f : Bands α) (now : Nat → α) : List (CanvasOp α) :=
  let size : α := min s.width s.height * 0.085
  let sides : Nat := 3
  let gradient : Gradient α :=
    { x0 := -size, y0 := -size, x1 := size, y1 := size
      stops :=
        [ (0, .hsl (f.bass * 0.5) 85 45),
          (0.3, .hsl (f.mid + 30) 70 55),
          (0.6, .hsl (f.treble + 60) 75 40),
          (1, .hsl (jsRem (f.bass + 180) 360) 80 35) ] }
  [ .save, .translate s.centerX s.centerY, .rotate s.rotation, .beginPath ]
    ++ (List.range sides).map (fun i =>
      let angle : α := ((i : α) * 2 * M.PI / (sides : α)) - M.PI / 2
      let radius : α := size * (0.00445 + f.bass * 0.018)
      let x : α := M.cos angle * radius
      let y : α := M.sin angle * radius
      if i = 0 then CanvasOp.moveTo x y else CanvasOp.lineTo x y)
    ++ [ .closePath, .setStrokeStyle (.gradient gradient), .setLineWidth 9, .stroke ]
    ++ drawInnerPatterns M (size * 0.999) f.mid f.treble now
    ++ [ .restore ]

/-- Method `drawFrame(timestamp)`: the new instance state and the operations issued on
the context. -/
def drawFrame [LinearOrderedField α] [FloorRing α] (E : Env α τ σ)
    (s : State α τ σ) (timestamp : α) (now : Nat → α) :
    State α τ σ × List (CanvasOp α) :=
  let gate := E.shouldDrawFrame s.frameTimer timestamp
  let s0 := { s with frameTimer := gate.2 }
  if !gate.1 then (s0, [])
  else
    let frequencies := E.analyzeFrequencyBands s0.frequencyData
    let s1 := { s0 with rotation := s0.rotation + frequencies.mid * 0.0001 }
    (s1,
      [ .setFillStyle (.color (.rgba 0 0 0 0.1)), .fillRect 0 0 s1.width s1.height ]
        ++ drawPrism E.math s1 frequencies now)

/-! ## The animation loop

`requestAnimationFrame` belongs to the host.  Every callback the source
registers is the same closure `(timestamp) => { this.drawFrame(timestamp);
this.animate(); }`, so the host queue is represented by the number of
registered callbacks.  At a paint opportunity the host runs the callbacks
registered before it, all with the same timestamp; callbacks registered
meanwhile wait for the next paint opportunity. -/

/-- A `Visualizer` instance together with the host state it acts on:
`scheduled` counts the callbacks registered with `requestAnimationFrame` and
not yet run, `log` lists the operations issued on the 2D context so far, and
`drawFrameCalls` is a ghost counter of `drawFrame` invocations. -/
structure Host (α τ σ : Type) where
  vis : State α τ σ
  scheduled : Nat
  log : List (CanvasOp α)
  drawFrameCalls : Nat

/-- Host state right after `new Visualizer(canvas)`. -/
def Host.fresh [LinearOrderedField α] (E : Env α τ σ) (innerWidth innerHeight : α) :
    Host α τ σ :=
  { vis := new E innerWidth innerHeight, scheduled := 0, log := [], drawFrameCalls := 0 }

/-- Method `animate()`. -/
def animate (h : Host α τ σ) : Host α τ σ :=
  if !h.vis.isRunning then h
  else { h with scheduled := h.scheduled + 1 }

/-- Method `start()`. -/
def start (h : Host α τ σ) : Host α τ σ :=
  animate { h with vis := { h.vis with isRunning := true } }

/-- A call of `drawFrame(timestamp)` on the instance held by the host. -/
def callDrawFrame [LinearOrderedField α] [FloorRing α] (E : Env α τ σ)
    (h : Host α τ σ) (timestamp : α) (now : Nat → α) : Host α τ σ :=
  let r := drawFrame E h.vis timestamp now
  { h with vis := r.1, log := h.log ++ r.2, drawFrameCalls := h.drawFrameCalls + 1 }

/-- Body of the callback registered by `animate()`. -/
def frameCallback [LinearOrderedField α] [FloorRing α] (E : Env α τ σ)
    (h : Host α τ σ) (timestamp : α) (now : Nat → α) : Host α τ σ :=
  animate (callDrawFrame E h timestamp now)

/-- Runs `n` callbacks in turn with the same timestamp; `nows k` is the clock
seen by the `k`-th one. -/
def runCallbacks [LinearOrderedField α] [FloorRing α] (E : Env α τ σ)
    (timestamp : α) (nows : Nat → Nat → α) : Nat → Nat → Host α τ σ → Host α τ σ
  | 0, _, h => h
  | n + 1, k, h => runCallbacks E timestamp nows n (k + 1) (frameCallback E h timestamp (nows k))

/-- One paint opportunity: the queue is emptied and each callback that was in it
runs once. -/
def paint [LinearOrderedField α] [FloorRing α] (E : Env α τ σ)
    (h : Host α τ σ) (timestamp : α) (nows : Nat → Nat → α) : Host α τ σ :=
  runCallbacks E timestamp nows h.scheduled 0 { h with scheduled := 0 }

/-- What can happen to a `Visualizer` held by a host page. -/
inductive Action (α σ : Type) where
  | resize (innerWidth innerHeight : α)
  | start
  | stop
  | updateFrequencyData (frequencyData : σ)
  | drawFrame (timestamp : α) (now : Nat → α)
  | paint (timestamp : α) (nows : Nat → Nat → α)

/-- Effect of one action. -/
def step [LinearOrderedField α] [FloorRing α] (E : Env α τ σ)
    (h : Host α τ σ) : Action α σ → Host α τ σ
  | .resize w ht => { h with vis := resize h.vis w ht }
  | .start => start h
  | .stop => { h with vis := stop h.vis }
  | .updateFrequencyData d => { h with vis := updateFrequencyData h.vis d }
  | .drawFrame ts now => callDrawFrame E h ts now
  | .paint ts nows => paint E h ts nows

/-- Effect of a sequence of actions. -/
def run [LinearOrderedField α] [FloorRing α] (E : Env α τ σ)
    (h : Host α τ σ) (acts : List (Action α σ)) : Host α τ σ :=
  acts.foldl (step E) h

/-- Actions other than `start()` and a direct call of `drawFrame`. -/
def Action.isPassive : Action α σ → Bool
  | .start => false
  | .drawFrame _ _ => false
  | _ => true

/-- The calls `start()` and `stop()`, which switch the loop on and off. -/
def Action.isLifecycle : Action α σ → Bool
  | .start => true
  | .stop => true
  | _ => false

/-! ## Reading the geometry off the issued operations -/

/-- Points of `moveTo`/`lineTo` before the first `beginPath`, and the point
lists of the paths begun afterwards. -/
def scanPaths : List (CanvasOp α) → List (α × α) × List (List (α × α))
  | [] => ([], [])
  | .beginPath :: rest => ([], (scanPaths rest).1 :: (scanPaths rest).2)
  | .moveTo x y :: rest => ((x, y) :: (scanPaths rest).1, (scanPaths rest).2)
  | .lineTo x y :: rest => ((x, y) :: (scanPaths rest).1, (scanPaths rest).2)
  | _ :: rest => scanPaths rest

/-- Vertex lists of the paths built by a sequence of operations, one per
`beginPath`, in order. -/
def paths (ops : List (CanvasOp α)) : List (List (α × α)) :=
  (scanPaths ops).2

/-- Angles of the `rotate` calls among a sequence of operations, in order. -/
def rotations : List (CanvasOp α) → List α
  | [] => []
  | .rotate a :: rest => a :: rotations rest
  | _ :: rest => rotations rest

/-! ## Sequences of calls -/

/-- The frames `(timestamp, clock)` passed to `drawFrame` one after another. -/
def drawFrames [LinearOrderedField α] [FloorRing α] (E : Env α τ σ)
    (s : State α τ σ) (frames : List (α × (Nat → α))) : State α τ σ :=
  frames.foldl (fun s f => (drawFrame E s f.1 f.2).1) s

/-- Operations issued by the frames `(timestamp, clock)` passed to `drawFrame` one
after another. -/
def drawFramesOps [LinearOrderedField α] [FloorRing α] (E : Env α τ σ) :
    State α τ σ → List (α × (Nat → α)) → List (CanvasOp α)
  | _, [] => []
  | s, f :: fs => (drawFrame E s f.1 f.2).2 ++ drawFramesOps E (drawFrame E s f.1 f.2).1 fs

/-- A call of `drawFrame` or of `updateFrequencyData`. -/
inductive Call (α σ : Type) where
  | drawFrame (timestamp : α) (now : Nat → α)
  | updateFrequencyData (frequencyData : σ)

/-- State after one call. -/
def Call.apply [LinearOrderedField α] [FloorRing α] (E : Env α τ σ)
    (s : State α τ σ) : Call α σ → State α τ σ
  | .drawFrame ts now => (Visualizer.drawFrame E s ts now).1
  | .updateFrequencyData d => Visualizer.updateFrequencyData s d

/-- States after each call of a sequence, in order. -/
def callTrace [LinearOrderedField α] [FloorRing α] (E : Env α τ σ) :
    State α τ σ → List (Call α σ) → List (State α τ σ)
  | _, [] => []
  | s, c :: cs => Call.apply E s c :: callTrace E (Call.apply E s c) cs

/-- The mid band is non-negative at every frame of the sequence that the gate
accepts. -/
def MidNonnegWhenAccepted [LinearOrderedField α] [FloorRing α] (E : Env α τ σ) :
    State α τ σ → List (Call α σ) → Prop
  | _, [] => True
  | s, .drawFrame ts now :: cs =>
      ((E.shouldDrawFrame s.frameTimer ts).1 = true →
          0 ≤ (E.analyzeFrequencyBands s.frequencyData).mid) ∧
        MidNonnegWhenAccepted E (Call.apply E s (.drawFrame ts now)) cs
  | s, .updateFrequencyData d :: cs =>
      MidNonnegWhenAccepted E (Call.apply E s (.updateFrequencyData d)) cs

end Ops

/-! ## Collaborators as the specification describes them -/

/-- Modelled from the spec: the `FrameTimer` class of `utils/timing.js`, which
is not part of the sources at hand.  It holds the target frame interval and the
timestamp of the last drawn frame, absent before the first call. -/
structure FrameTimer (α : Type) where
  interval : α
  lastDrawn : Option α

/-- Modelled from the spec: `new FrameTimer(F)` of `utils/timing.js`, with
interval `1000 / F` milliseconds. -/
def FrameTimer.create {α : Type} [LinearOrderedField α] (fps : α) : FrameTimer α :=
  { interval := 1000 / fps, lastDrawn := none }

/-- Modelled from the spec: `FrameTimer.shouldDrawFrame` of `utils/timing.js`.
True, recording the timestamp, on the first call or when at least the interval
has elapsed since the last drawn frame; false otherwise, state untouched. -/
def FrameTimer.shouldDrawFrame {α : Type} [LinearOrderedField α]
    (t : FrameTimer α) (timestamp : α) : Bool × FrameTimer α :=
  match t.lastDrawn with
  | none => (true, { t with lastDrawn := some timestamp })
  | some last =>
    if t.interval ≤ timestamp - last then (true, { t with lastDrawn := some timestamp })
    else (false, t)

/-- Arithmetic mean, zero for the empty list. -/
def mean {α : Type} [LinearOrderedField α] (xs : List α) : α :=
  if xs.isEmpty then 0 else xs.sum / (xs.length : α)

/-- Modelled from the spec: the index range of band `i` (0 low, 1 mid, 2 high)
used by `analyzeFrequencyBands` of `utils/frequency.js`.  The snapshot is cut at
the thirds of its length; a range that would be empty on a snapshot shorter than
three samples is widened to one sample, so that every band of a non-empty
snapshot is a mean of samples. -/
def bandSlice {α : Type} (xs : List α) (i : Nat) : List α :=
  let lo := i * xs.length / 3
  let hi := max (lo + 1) ((i + 1) * xs.length / 3)
  (xs.drop lo).take (hi - lo)

/-- Modelled from the spec: `analyzeFrequencyBands` of `utils/frequency.js`,
which is not part of the sources at hand.  The snapshot is cut into low, mid and
high thirds and each band is the mean magnitude of its third; an absent or
empty snapshot gives the zero bands. -/
def analyzeFrequencyBands {α : Type} [LinearOrderedField α] :
    Option (List α) → Bands α
  | none => { bass := 0, mid := 0, treble := 0 }
  | some xs =>
    { bass := mean (bandSlice xs 0)
      mid := mean (bandSlice xs 1)
      treble := mean (bandSlice xs 2) }

/-- The environment assembled from the collaborators above. -/
def specEnv {α : Type} [LinearOrderedField α] (M : JsMath α) :
    Env α (FrameTimer α) (List α) :=
  { math := M
    newFrameTimer := FrameTimer.create
    shouldDrawFrame := FrameTimer.shouldDrawFrame
    analyzeFrequencyBands := analyzeFrequencyBands }

/-! ## Properties -/

section Lemmas

variable {α τ σ : Type}

theorem foldl_updateFrequencyData (ds : List σ) (s : State α τ σ) :
    ds.foldl updateFrequencyData s
      = { s with frequencyData := (ds.getLast? <|> s.frequencyData) } := by
  induction ds generalizing s with
  | nil => rfl
  | cons d ds ih =>
    rw [List.foldl_cons, ih]
    cases ds with
    | nil => rfl
    | cons e es =>
      rw [List.getLast?_cons_cons, List.getLast?_eq_getLast _ (List.cons_ne_nil e es)]
      rfl

theorem drawFrame_of_accept [LinearOrderedField α] [FloorRing α] (E : Env α τ σ)
    (s : State α τ σ) (ts : α) (now : Nat → α)
    (h : (E.shouldDrawFrame s.frameTimer ts).1 = true) :
    drawFrame E s ts now
      = ({ s with
            frameTimer := (E.shouldDrawFrame s.frameTimer ts).2
            rotation := s.rotation + (E.analyzeFrequencyBands s.frequencyData).mid * 0.0001 },
          [ .setFillStyle (.color (.rgba 0 0 0 0.1)), .fillRect 0 0 s.width s.height ]
            ++ drawPrism E.math
                { s with
                  frameTimer := (E.shouldDrawFrame s.frameTimer ts).2
                  rotation :=
                    s.rotation + (E.analyzeFrequencyBands s.frequencyData).mid * 0.0001 }
                (E.analyzeFrequencyBands s.frequencyData) now) := by
  simp [drawFrame, h]

theorem drawFrame_of_reject [LinearOrderedField α] [FloorRing α] (E : Env α τ σ)
    (s : State α τ σ) (ts : α) (now : Nat → α)
    (h : (E.shouldDrawFrame s.frameTimer ts).1 = false) :
    drawFrame E s ts now
      = ({ s with frameTimer := (E.shouldDrawFrame s.frameTimer ts).2 }, []) := by
  simp [drawFrame, h]

theorem paths_drawPrism [LinearOrderedField α] [FloorRing α] (M : JsMath α)
    (s : State α τ σ) (f : Bands α) (now : Nat → α) :
    paths (drawPrism M s f now)
      = [ [ (M.cos (0 * 2 * M.PI / 3 - M.PI / 2)
                * (min s.width s.height * 0.085 * (0.00445 + f.bass * 0.018)),
              M.sin (0 * 2 * M.PI / 3 - M.PI / 2)
                * (min s.width s.height * 0.085 * (0.00445 + f.bass * 0.018))),
            (M.cos (1 * 2 * M.PI / 3 - M.PI / 2)
                * (min s.width s.height * 0.085 * (0.00445 + f.bass * 0.018)),
              M.sin (1 * 2 * M.PI / 3 - M.PI / 2)
                * (min s.width s.height * 0.085 * (0.00445 + f.bass * 0.018))),
            (M.cos (2 * 2 * M.PI / 3 - M.PI / 2)
                * (min s.width s.height * 0.085 * (0.00445 + f.bass * 0.018)),
              M.sin (2 * 2 * M.PI / 3 - M.PI / 2)
                * (min s.width s.height * 0.085 * (0.00445 + f.bass * 0.018))) ],
          [ (0, -(min s.width s.height * 0.085 * 0.999) * (1 + f.mid * 0.033)),
            (min s.width s.height * 0.085 * 0.999 * M.cos (M.PI / 6) * (1 + f.mid * 0.033),
              min s.width s.height * 0.085 * 0.999 * M.sin (M.PI / 6) * (1 + f.mid * 0.033)),
            (-(min s.width s.height * 0.085 * 0.999) * M.cos (M.PI / 6) * (1 + f.mid * 0.033),
              min s.width s.height * 0.085 * 0.999 * M.sin (M.PI / 6)
                * (1 + f.mid * 0.033)) ] ] := by
  simp [paths, scanPaths, drawPrism, drawInnerPatterns, List.range, List.range.loop]

theorem drawFrame_no_signal [LinearOrderedField α] [FloorRing α] (E : Env α τ σ)
    (h0 : E.analyzeFrequencyBands none = ⟨0, 0, 0⟩)
    (s : State α τ σ) (hs : s.frequencyData = none) (ts : α) (now : Nat → α) :
    (drawFrame E s ts now).1.frequencyData = none ∧
      (drawFrame E s ts now).1.rotation = s.rotation ∧
      (drawFrame E s ts now).1.width = s.width ∧
      (drawFrame E s ts now).1.height = s.height := by
  cases h : (E.shouldDrawFrame s.frameTimer ts).1 with
  | false =>
    rw [drawFrame_of_reject E s ts now h]
    exact ⟨hs, rfl, rfl, rfl⟩
  | true =>
    rw [drawFrame_of_accept E s ts now h]
    refine ⟨hs, ?_, rfl, rfl⟩
    show s.rotation + (E.analyzeFrequencyBands s.frequencyData).mid * 0.0001 = s.rotation
    rw [hs, h0]
    simp

theorem drawFrames_no_signal [LinearOrderedField α] [FloorRing α] (E : Env α τ σ)
    (h0 : E.analyzeFrequencyBands none = ⟨0, 0, 0⟩)
    (frames : List (α × (Nat → α))) (s : State α τ σ) (hs : s.frequencyData = none) :
    (drawFrames E s frames).frequencyData = none ∧
      (drawFrames E s frames).rotation = s.rotation ∧
      (drawFrames E s frames).width = s.width ∧
      (drawFrames E s frames).height = s.height := by
  induction frames generalizing s with
  | nil => exact ⟨hs, rfl, rfl, rfl⟩
  | cons f fs ih =>
    obtain ⟨a, b, c, d⟩ := drawFrame_no_signal E h0 s hs f.1 f.2
    obtain ⟨a1, b1, c1, d1⟩ := ih (drawFrame E s f.1 f.2).1 a
    exact ⟨a1, b1.trans b, c1.trans c, d1.trans d⟩

theorem rotation_le_apply [LinearOrderedField α] [FloorRing α] (E : Env α τ σ)
    (s : State α τ σ) (c : Call α σ) (cs : List (Call α σ))
    (h : MidNonnegWhenAccepted E s (c :: cs)) :
    s.rotation ≤ (Call.apply E s c).rotation ∧
      MidNonnegWhenAccepted E (Call.apply E s c) cs := by
  cases c with
  | updateFrequencyData d => exact ⟨le_refl _, h⟩
  | drawFrame ts now =>
    refine ⟨?_, h.2⟩
    show s.rotation ≤ (drawFrame E s ts now).1.rotation
    cases hg : (E.shouldDrawFrame s.frameTimer ts).1 with
    | false =>
      rw [drawFrame_of_reject E s ts now hg]
    | true =>
      rw [drawFrame_of_accept E s ts now hg]
      show s.rotation ≤ s.rotation + (E.analyzeFrequencyBands s.frequencyData).mid * 0.0001
      have hm := h.1 hg
      have : (0 : α) ≤ (E.analyzeFrequencyBands s.frequencyData).mid * 0.0001 :=
        mul_nonneg hm (by norm_num)
      linarith

theorem drawFrame_isRunning [LinearOrderedField α] [FloorRing α] (E : Env α τ σ)
    (s : State α τ σ) (ts : α) (now : Nat → α) :
    (drawFrame E s ts now).1.isRunning = s.isRunning := by
  cases h : (E.shouldDrawFrame s.frameTimer ts).1 with
  | false => rw [drawFrame_of_reject E s ts now h]
  | true => rw [drawFrame_of_accept E s ts now h]

theorem frameCallback_facts [LinearOrderedField α] [FloorRing α] (E : Env α τ σ)
    (h : Host α τ σ) (ts : α) (now : Nat → α) :
    (frameCallback E h ts now).vis.isRunning = h.vis.isRunning ∧
      (frameCallback E h ts now).drawFrameCalls = h.drawFrameCalls + 1 ∧
      (frameCallback E h ts now).scheduled
        = h.scheduled + (if h.vis.isRunning then 1 else 0) := by
  have hr := drawFrame_isRunning E h.vis ts now
  cases hb : h.vis.isRunning with
  | false =>
    rw [hb] at hr
    simp [frameCallback, animate, callDrawFrame, hr]
  | true =>
    rw [hb] at hr
    simp [frameCallback, animate, callDrawFrame, hr]

theorem runCallbacks_facts [LinearOrderedField α] [FloorRing α] (E : Env α τ σ)
    (ts : α) (nows : Nat → Nat → α) (n k : Nat) (h : Host α τ σ) :
    (runCallbacks E ts nows n k h).vis.isRunning = h.vis.isRunning ∧
      (runCallbacks E ts nows n k h).drawFrameCalls = h.drawFrameCalls + n ∧
      (runCallbacks E ts nows n k h).scheduled
        = h.scheduled + (if h.vis.isRunning then n else 0) := by
  induction n generalizing k h with
  | zero => simp [runCallbacks]
  | succ n ih =>
    obtain ⟨a, b, c⟩ := frameCallback_facts E h ts (nows k)
    obtain ⟨a1, b1, c1⟩ := ih (k + 1) (frameCallback E h ts (nows k))
    rw [runCallbacks]
    refine ⟨a1.trans a, ?_, ?_⟩
    · rw [b1, b]; omega
    · rw [c1, c, a]
      cases h.vis.isRunning
      · simp
      · simp only [if_true]
        omega

theorem paint_facts [LinearOrderedField α] [FloorRing α] (E : Env α τ σ)
    (h : Host α τ σ) (ts : α) (nows : Nat → Nat → α) :
    (paint E h ts nows).vis.isRunning = h.vis.isRunning ∧
      (paint E h ts nows).drawFrameCalls = h.drawFrameCalls + h.scheduled ∧
      (paint E h ts nows).scheduled = (if h.vis.isRunning then h.scheduled else 0) := by
  obtain ⟨a, b, c⟩ := runCallbacks_facts E ts nows h.scheduled 0 { h with scheduled := 0 }
  refine ⟨a, b, ?_⟩
  rw [paint, c]
  simp

theorem paint_of_idle [LinearOrderedField α] [FloorRing α] (E : Env α τ σ)
    (h : Host α τ σ) (ts : α) (nows : Nat → Nat → α) (hs : h.scheduled = 0) :
    paint E h ts nows = h := by
  cases h with
  | mk vis scheduled log calls =>
    simp only at hs
    subst hs
    rfl

theorem step_of_idle [LinearOrderedField α] [FloorRing α] (E : Env α τ σ)
    (h : Host α τ σ) (a : Action α σ) (hs : h.scheduled = 0) (ha : a.isPassive = true) :
    (step E h a).scheduled = 0 ∧ (step E h a).log = h.log ∧
      (step E h a).vis.rotation = h.vis.rotation ∧
      (step E h a).drawFrameCalls = h.drawFrameCalls := by
  cases a with
  | resize w ht => exact ⟨hs, rfl, rfl, rfl⟩
  | start => simp [Action.isPassive] at ha
  | stop => exact ⟨hs, rfl, rfl, rfl⟩
  | updateFrequencyData d => exact ⟨hs, rfl, rfl, rfl⟩
  | drawFrame ts now => simp [Action.isPassive] at ha
  | paint ts nows =>
    have hp : step E h (.paint ts nows) = h := paint_of_idle E h ts nows hs
    rw [hp]
    exact ⟨hs, rfl, rfl, rfl⟩

theorem run_of_idle [LinearOrderedField α] [FloorRing α] (E : Env α τ σ)
    (acts : List (Action α σ)) (h : Host α τ σ) (hs : h.scheduled = 0)
    (hq : ∀ a ∈ acts, a.isPassive = true) :
    (run E h acts).scheduled = 0 ∧ (run E h acts).log = h.log ∧
      (run E h acts).vis.rotation = h.vis.rotation ∧
      (run E h acts).drawFrameCalls = h.drawFrameCalls := by
  induction acts generalizing h with
  | nil => exact ⟨hs, rfl, rfl, rfl⟩
  | cons a acts ih =>
    obtain ⟨a1, b1, c1, d1⟩ := step_of_idle E h a hs (hq a (List.mem_cons_self a acts))
    obtain ⟨a2, b2, c2, d2⟩ :=
      ih (step E h a) a1 (fun x hx => hq x (List.mem_cons_of_mem a hx))
    exact ⟨a2, b2.trans b1, c2.trans c1, d2.trans d1⟩

theorem frameCallback_vis_log [LinearOrderedField α] [FloorRing α] (E : Env α τ σ)
    (h : Host α τ σ) (ts : α) (now : Nat → α) :
    (frameCallback E h ts now).vis = (drawFrame E h.vis ts now).1 ∧
      (frameCallback E h ts now).log = h.log ++ (drawFrame E h.vis ts now).2 := by
  unfold frameCallback animate
  split <;> exact ⟨rfl, rfl⟩

theorem runCallbacks_vis_log [LinearOrderedField α] [FloorRing α] (E : Env α τ σ)
    (ts : α) (nows : Nat → Nat → α) (n k : Nat) (h : Host α τ σ) :
    (runCallbacks E ts nows n k h).vis
        = drawFrames E h.vis ((List.range' k n).map fun j => (ts, nows j)) ∧
      (runCallbacks E ts nows n k h).log
        = h.log ++ drawFramesOps E h.vis ((List.range' k n).map fun j => (ts, nows j)) := by
  induction n generalizing k h with
  | zero => simp [runCallbacks, drawFrames, drawFramesOps]
  | succ n ih =>
    obtain ⟨a, b⟩ := frameCallback_vis_log E h ts (nows k)
    obtain ⟨a1, b1⟩ := ih (k + 1) (frameCallback E h ts (nows k))
    rw [runCallbacks, a1, b1, a, b]
    simp [List.range'_succ, drawFrames, drawFramesOps]

theorem paint_vis_log [LinearOrderedField α] [FloorRing α] (E : Env α τ σ)
    (h : Host α τ σ) (ts : α) (nows : Nat → Nat → α) :
    (paint E h ts nows).vis
        = drawFrames E h.vis ((List.range h.scheduled).map fun j => (ts, nows j)) ∧
      (paint E h ts nows).log
        = h.log ++ drawFramesOps E h.vis ((List.range h.scheduled).map fun j => (ts, nows j)) := by
  rw [List.range_eq_range']
  exact runCallbacks_vis_log E ts nows h.scheduled 0 { h with scheduled := 0 }

theorem step_keeps_loop [LinearOrderedField α] [FloorRing α] (E : Env α τ σ)
    (g : Host α τ σ) (a : Action α σ) (hr : g.vis.isRunning = true)
    (ha : a.isLifecycle = false) :
    (step E g a).vis.isRunning = true ∧ (step E g a).scheduled = g.scheduled := by
  cases a with
  | resize w ht => exact ⟨hr, rfl⟩
  | start => simp [Action.isLifecycle] at ha
  | stop => simp [Action.isLifecycle] at ha
  | updateFrequencyData d => exact ⟨hr, rfl⟩
  | drawFrame ts now => exact ⟨(drawFrame_isRunning E g.vis ts now).trans hr, rfl⟩
  | paint ts nows =>
    obtain ⟨a, _, c⟩ := paint_facts E g ts nows
    refine ⟨a.trans hr, ?_⟩
    show (paint E g ts nows).scheduled = g.scheduled
    rw [c, hr]
    rfl

theorem run_keeps_loop [LinearOrderedField α] [FloorRing α] (E : Env α τ σ)
    (acts : List (Action α σ)) (g : Host α τ σ) (hr : g.vis.isRunning = true)
    (hk : ∀ a ∈ acts, a.isLifecycle = false) :
    (run E g acts).vis.isRunning = true ∧ (run E g acts).scheduled = g.scheduled := by
  induction acts generalizing g with
  | nil => exact ⟨hr, rfl⟩
  | cons a acts ih =>
    obtain ⟨a1, b1⟩ := step_keeps_loop E g a hr (hk a (List.mem_cons_self a acts))
    obtain ⟨a2, b2⟩ := ih (step E g a) a1 (fun x hx => hk x (List.mem_cons_of_mem a hx))
    exact ⟨a2, b2.trans b1⟩

end Lemmas

section Claims

variable {α τ σ : Type}

/-- C8: after `resize()` the surface width and height are the viewport extents
just read, the center point is exactly `(width / 2, height / 2)`, and rotation,
the running flag, the stored snapshot and the frame timer are unchanged. -/
theorem resize_sets_extents_and_center [LinearOrderedField α] (s : State α τ σ) (w h : α) :
    (resize s w h).width = w ∧ (resize s w h).height = h ∧
      (resize s w h).centerX = w / 2 ∧ (resize s w h).centerY = h / 2 ∧
      (resize s w h).rotation = s.rotation ∧ (resize s w h).isRunning = s.isRunning ∧
      (resize s w h).frequencyData = s.frequencyData ∧
      (resize s w h).frameTimer = s.frameTimer :=
  ⟨rfl, rfl, rfl, rfl, rfl, rfl, rfl, rfl⟩

/-- C10: when the frame gate rejects the timestamp, `drawFrame` issues no
drawing operation and leaves rotation, surface dimensions, center point, stored
snapshot and running flag unchanged. -/
theorem drawFrame_rejected_no_effect [LinearOrderedField α] [FloorRing α] (E : Env α τ σ)
    (s : State α τ σ) (ts : α) (now : Nat → α)
    (h : (E.shouldDrawFrame s.frameTimer ts).1 = false) :
    (drawFrame E s ts now).2 = [] ∧
      (drawFrame E s ts now).1.rotation = s.rotation ∧
      (drawFrame E s ts now).1.width = s.width ∧
      (drawFrame E s ts now).1.height = s.height ∧
      (drawFrame E s ts now).1.centerX = s.centerX ∧
      (drawFrame E s ts now).1.centerY = s.centerY ∧
      (drawFrame E s ts now).1.frequencyData = s.frequencyData ∧
      (drawFrame E s ts now).1.isRunning = s.isRunning := by
  rw [drawFrame_of_reject E s ts now h]
  exact ⟨rfl, rfl, rfl, rfl, rfl, rfl, rfl, rfl⟩

/-- C1: when the frame gate accepts the timestamp, `drawFrame` adds exactly
`mid * 0.0001` to the rotation angle, `mid` being the mid band of the snapshot
passed by the last `updateFrequencyData` call (of the stored one when no call
intervenes); when that band is 255 the increase is `255 * 0.0001`. -/
theorem drawFrame_accepted_advances_rotation [LinearOrderedField α] [FloorRing α]
    (E : Env α τ σ) (s : State α τ σ) (ds : List σ) (ts : α) (now : Nat → α)
    (h : (E.shouldDrawFrame s.frameTimer ts).1 = true) :
    (drawFrame E (ds.foldl updateFrequencyData s) ts now).1.rotation
        = s.rotation
          + (E.analyzeFrequencyBands (ds.getLast? <|> s.frequencyData)).mid * 0.0001 ∧
      ((E.analyzeFrequencyBands (ds.getLast? <|> s.frequencyData)).mid = 255 →
        (drawFrame E (ds.foldl updateFrequencyData s) ts now).1.rotation
          = s.rotation + 255 * 0.0001) := by
  have key : (drawFrame E (ds.foldl updateFrequencyData s) ts now).1.rotation
      = s.rotation
        + (E.analyzeFrequencyBands (ds.getLast? <|> s.frequencyData)).mid * 0.0001 := by
    rw [foldl_updateFrequencyData]
    exact congrArg (fun r => r.1.rotation)
      (drawFrame_of_accept E
        { s with frequencyData := (ds.getLast? <|> s.frequencyData) } ts now h)
  refine ⟨key, fun hm => ?_⟩
  rw [key, hm]

/-- Witness for C10: 5 ms after a frame drawn at time 0 the 60 fps gate rejects. -/
theorem drawFrame_rejected_no_effect_witness :
    (FrameTimer.shouldDrawFrame (⟨1000 / 60, some 0⟩ : FrameTimer ℝ) 5).1 = false ∧
      (drawFrame (specEnv ⟨Real.cos, Real.sin, Real.pi⟩)
        { new (specEnv ⟨Real.cos, Real.sin, Real.pi⟩) 800 600 with
          frameTimer := ⟨1000 / 60, some 0⟩ } 5 (fun _ => 0)).2 = [] :=
  have h : (FrameTimer.shouldDrawFrame (⟨1000 / 60, some 0⟩ : FrameTimer ℝ) 5).1 = false := by
    norm_num [FrameTimer.shouldDrawFrame]
  ⟨h, (drawFrame_rejected_no_effect (specEnv ⟨Real.cos, Real.sin, Real.pi⟩)
        { new (specEnv ⟨Real.cos, Real.sin, Real.pi⟩) 800 600 with
          frameTimer := ⟨1000 / 60, some 0⟩ } 5 (fun _ => 0) h).1⟩

/-- Witness for C1: a fresh renderer fed the all-255 snapshot turns by
`255 * 0.0001` on its first frame. -/
theorem drawFrame_accepted_advances_rotation_witness :
    (drawFrame (specEnv ⟨Real.cos, Real.sin, Real.pi⟩)
        ([[255, 255, 255, 255, 255, 255]].foldl updateFrequencyData
          (new (specEnv ⟨Real.cos, Real.sin, Real.pi⟩) 800 600)) 0 (fun _ => 0)).1.rotation
      = 0.04 + 255 * 0.0001 :=
  (drawFrame_accepted_advances_rotation (specEnv ⟨Real.cos, Real.sin, Real.pi⟩)
      (new (specEnv ⟨Real.cos, Real.sin, Real.pi⟩) 800 600)
      [[255, 255, 255, 255, 255, 255]] 0 (fun _ => 0) rfl).2
    (by norm_num [specEnv, analyzeFrequencyBands, bandSlice, mean])

/-- C2: `drawPrism` places exactly three outer vertices, the `i`-th at angle
`i * 2 * pi / 3 - pi / 2` and radius
`min(width, height) * 0.085 * (0.00445 + bass * 0.018)`; the first one is straight
up at `(0, -radius)`, consecutive angles differ by a third of a turn, and on an
800 x 600 surface with bass 255 the radius is
`min(800, 600) * 0.085 * (0.00445 + 255 * 0.018)`. -/
theorem drawPrism_outer_vertices (s : State ℝ τ σ) (f : Bands ℝ) (now : Nat → ℝ) :
    (paths (drawPrism ⟨Real.cos, Real.sin, Real.pi⟩ s f now)).head?
        = some ((List.range 3).map fun i : Nat =>
            (Real.cos ((i : ℝ) * 2 * Real.pi / 3 - Real.pi / 2)
                * (min s.width s.height * 0.085 * (0.00445 + f.bass * 0.018)),
              Real.sin ((i : ℝ) * 2 * Real.pi / 3 - Real.pi / 2)
                * (min s.width s.height * 0.085 * (0.00445 + f.bass * 0.018)))) ∧
      ((paths (drawPrism ⟨Real.cos, Real.sin, Real.pi⟩ s f now)).head?.bind List.head?
        = some (0, -(min s.width s.height * 0.085 * (0.00445 + f.bass * 0.018)))) ∧
      (∀ i : Nat, (((i + 1 : Nat) : ℝ) * 2 * Real.pi / 3 - Real.pi / 2)
          - ((i : ℝ) * 2 * Real.pi / 3 - Real.pi / 2) = 2 * Real.pi / 3) ∧
      ((paths (drawPrism ⟨Real.cos, Real.sin, Real.pi⟩
            { s with width := 800, height := 600 } { f with bass := 255 } now)).head?.bind
          List.head?
        = some (0, -(min 800 600 * 0.085 * (0.00445 + 255 * 0.018)))) := by
  have h0 : (0 : ℝ) * 2 * Real.pi / 3 - Real.pi / 2 = -(Real.pi / 2) := by ring
  refine ⟨?_, ?_, ?_, ?_⟩
  · rw [paths_drawPrism]
    simp [List.range, List.range.loop]
  · rw [paths_drawPrism]
    simp [h0]
  · intro i
    push_cast
    ring
  · rw [paths_drawPrism]
    simp [h0]

/-- C9, as stated, fails: on a 1000 x 1000 surface with silent bands the inner
triangle is not at 0.999 times the outer vertex radius. -/
theorem inner_triangle_not_scaled_from_outer_radius :
    (paths (drawPrism ⟨Real.cos, Real.sin, Real.pi⟩
        (new (specEnv ⟨Real.cos, Real.sin, Real.pi⟩) 1000 1000)
        ⟨0, 0, 0⟩ (fun _ => 0)))[1]?
      ≠ some ((List.range 3).map fun i : Nat =>
          (Real.cos ((i : ℝ) * 2 * Real.pi / 3 - Real.pi / 2)
              * (0.999 * (min 1000 1000 * 0.085 * (0.00445 + 0 * 0.018)) * (1 + 0 * 0.033)),
            Real.sin ((i : ℝ) * 2 * Real.pi / 3 - Real.pi / 2)
              * (0.999 * (min 1000 1000 * 0.085 * (0.00445 + 0 * 0.018))
                  * (1 + 0 * 0.033)))) := by
  rw [paths_drawPrism]
  intro h
  have h0 : (0 : ℝ) * 2 * Real.pi / 3 - Real.pi / 2 = -(Real.pi / 2) := by ring
  simp only [List.getElem?_cons_succ, List.getElem?_cons_zero, Option.some.injEq,
    List.range, List.range.loop, List.map_cons, List.cons.injEq, Prod.mk.injEq,
    Nat.cast_zero, h0, Real.sin_neg, Real.sin_pi_div_two, new] at h
  have h1 := h.1.2
  norm_num at h1

/-- C9, amended: the inner triangle has its `i`-th vertex at the angle
`i * 2 * pi / 3 - pi / 2` of the `i`-th outer vertex and at radius
`0.999 * (min(width, height) * 0.085) * (1 + mid * 0.033)`, whatever the bass; it
is drawn in the frame of the outer polygon, the inner `rotate` being by 0. -/
theorem drawPrism_inner_vertices (s : State ℝ τ σ) (f : Bands ℝ) (now : Nat → ℝ) :
    (paths (drawPrism ⟨Real.cos, Real.sin, Real.pi⟩ s f now))[1]?
        = some ((List.range 3).map fun i : Nat =>
            (Real.cos ((i : ℝ) * 2 * Real.pi / 3 - Real.pi / 2)
                * (0.999 * (min s.width s.height * 0.085) * (1 + f.mid * 0.033)),
              Real.sin ((i : ℝ) * 2 * Real.pi / 3 - Real.pi / 2)
                * (0.999 * (min s.width s.height * 0.085) * (1 + f.mid * 0.033)))) ∧
      rotations (drawPrism ⟨Real.cos, Real.sin, Real.pi⟩ s f now) = [s.rotation, 0] := by
  have h0 : (0 : ℝ) * 2 * Real.pi / 3 - Real.pi / 2 = -(Real.pi / 2) := by ring
  have h1 : (1 : ℝ) * 2 * Real.pi / 3 - Real.pi / 2 = Real.pi / 6 := by ring
  have h2 : (2 : ℝ) * 2 * Real.pi / 3 - Real.pi / 2 = Real.pi - Real.pi / 6 := by ring
  constructor
  · rw [paths_drawPrism]
    simp only [List.getElem?_cons_succ, List.getElem?_cons_zero, List.range,
      List.range.loop, List.map_cons, List.map_nil, Nat.cast_zero, Nat.cast_one,
      Nat.cast_ofNat, h0, h1, h2, Real.cos_neg, Real.sin_neg, Real.cos_pi_div_two,
      Real.sin_pi_div_two, Real.cos_pi_sub, Real.sin_pi_sub]
    simp only [Option.some.injEq, List.cons.injEq, Prod.mk.injEq, and_true]
    refine ⟨⟨?_, ?_⟩, ⟨?_, ?_⟩, ⟨?_, ?_⟩⟩ <;> ring
  · simp [rotations, drawPrism, drawInnerPatterns, List.range, List.range.loop]

/-- C6: along every finite sequence of `drawFrame` and `updateFrequencyData`
calls in which the mid band is non-negative at every accepted frame, the rotation
angle after each call is at least the rotation angle before it. -/
theorem rotation_monotone [LinearOrderedField α] [FloorRing α] (E : Env α τ σ)
    (s : State α τ σ) (cs : List (Call α σ)) (h : MidNonnegWhenAccepted E s cs) :
    List.Chain (fun a b : State α τ σ => a.rotation ≤ b.rotation) s (callTrace E s cs) := by
  induction cs generalizing s with
  | nil => exact List.Chain.nil
  | cons c cs ih =>
    obtain ⟨h1, h2⟩ := rotation_le_apply E s c cs h
    exact List.Chain.cons h1 (ih _ h2)

/-- Witness for C6: a snapshot, an accepted frame, a rejected frame, a second
snapshot and another accepted frame. -/
theorem rotation_monotone_witness :
    MidNonnegWhenAccepted (specEnv ⟨Real.cos, Real.sin, Real.pi⟩)
        (new (specEnv ⟨Real.cos, Real.sin, Real.pi⟩) 800 600)
        [.updateFrequencyData [255, 255, 255], .drawFrame 0 (fun _ => 0),
          .drawFrame 5 (fun _ => 0), .updateFrequencyData [0, 90, 30],
          .drawFrame 100 (fun _ => 0)] ∧
      List.Chain (fun a b : State ℝ (FrameTimer ℝ) (List ℝ) => a.rotation ≤ b.rotation)
        (new (specEnv ⟨Real.cos, Real.sin, Real.pi⟩) 800 600)
        (callTrace (specEnv ⟨Real.cos, Real.sin, Real.pi⟩)
          (new (specEnv ⟨Real.cos, Real.sin, Real.pi⟩) 800 600)
          [.updateFrequencyData [255, 255, 255], .drawFrame 0 (fun _ => 0),
            .drawFrame 5 (fun _ => 0), .updateFrequencyData [0, 90, 30],
            .drawFrame 100 (fun _ => 0)]) :=
  have h : MidNonnegWhenAccepted (specEnv ⟨Real.cos, Real.sin, Real.pi⟩)
      (new (specEnv ⟨Real.cos, Real.sin, Real.pi⟩) 800 600)
      [.updateFrequencyData [255, 255, 255], .drawFrame 0 (fun _ => 0),
        .drawFrame 5 (fun _ => 0), .updateFrequencyData [0, 90, 30],
        .drawFrame 100 (fun _ => 0)] := by
    norm_num [MidNonnegWhenAccepted, Call.apply, updateFrequencyData, drawFrame, new, specEnv,
      FrameTimer.shouldDrawFrame, FrameTimer.create, analyzeFrequencyBands, bandSlice, mean]
  ⟨h, rotation_monotone _ _ _ h⟩

/-- C7: when `updateFrequencyData` is never called and the analyzer maps the
absent snapshot to the zero bands, after every sequence of frames the rotation
angle is still the constructor's 0.04, and a frame accepted next draws the outer
polygon at radius `min(width, height) * 0.085 * 0.00445`. -/
theorem no_signal_rotation_and_radius [LinearOrderedField α] [FloorRing α] (E : Env α τ σ)
    (w ht : α) (frames : List (α × (Nat → α))) (ts : α) (now : Nat → α)
    (h0 : E.analyzeFrequencyBands none = ⟨0, 0, 0⟩) :
    (drawFrames E (new E w ht) frames).rotation = 0.04 ∧
      ((E.shouldDrawFrame (drawFrames E (new E w ht) frames).frameTimer ts).1 = true →
        (drawFrame E (drawFrames E (new E w ht) frames) ts now).1.rotation = 0.04 ∧
        (paths (drawFrame E (drawFrames E (new E w ht) frames) ts now).2).head?
          = some ((List.range 3).map fun i : Nat =>
              (E.math.cos ((i : α) * 2 * E.math.PI / 3 - E.math.PI / 2)
                  * (min w ht * 0.085 * 0.00445),
                E.math.sin ((i : α) * 2 * E.math.PI / 3 - E.math.PI / 2)
                  * (min w ht * 0.085 * 0.00445)))) := by
  obtain ⟨hf, hr, hw, hh⟩ := drawFrames_no_signal E h0 frames (new E w ht) rfl
  refine ⟨hr, fun hg => ⟨?_, ?_⟩⟩
  · rw [(drawFrame_no_signal E h0 _ hf ts now).2.1, hr]
    rfl
  · rw [drawFrame_of_accept E _ ts now hg, hf, h0]
    have hp : ∀ ops : List (CanvasOp α),
        paths (CanvasOp.setFillStyle (.color (.rgba 0 0 0 0.1))
          :: CanvasOp.fillRect 0 0 (drawFrames E (new E w ht) frames).width
              (drawFrames E (new E w ht) frames).height :: ops) = paths ops :=
      fun _ => rfl
    have hw1 : (drawFrames E (new E w ht) frames).width = w := hw
    have hh1 : (drawFrames E (new E w ht) frames).height = ht := hh
    rw [List.cons_append, List.cons_append, List.nil_append, hp, paths_drawPrism]
    simp [List.range, List.range.loop, hw1, hh1]

/-- Witness for C7: three frames on a fresh 800 x 600 renderer that never
receives a snapshot. -/
theorem no_signal_rotation_and_radius_witness :
    (specEnv ⟨Real.cos, Real.sin, Real.pi⟩).analyzeFrequencyBands none = ⟨0, 0, 0⟩ ∧
      (drawFrames (specEnv ⟨Real.cos, Real.sin, Real.pi⟩)
        (new (specEnv ⟨Real.cos, Real.sin, Real.pi⟩) 800 600)
        [(0, fun _ => 0), (5, fun _ => 5), (20, fun _ => 20)]).rotation = 0.04 :=
  ⟨rfl, (no_signal_rotation_and_radius (specEnv ⟨Real.cos, Real.sin, Real.pi⟩) 800 600
      [(0, fun _ => 0), (5, fun _ => 5), (20, fun _ => 20)] 40 (fun _ => 40) rfl).1⟩

/-- C3, as stated, fails: a callback scheduled by `start()` and resumed after
`stop()` still draws and still turns the shape. -/
theorem stopped_inflight_callback_draws :
    (run (specEnv ⟨Real.cos, Real.sin, Real.pi⟩)
        (Host.fresh (specEnv ⟨Real.cos, Real.sin, Real.pi⟩) 800 600)
        [.updateFrequencyData [255, 255, 255], .start, .stop]).vis.isRunning = false ∧
      (run (specEnv ⟨Real.cos, Real.sin, Real.pi⟩)
        (Host.fresh (specEnv ⟨Real.cos, Real.sin, Real.pi⟩) 800 600)
        [.updateFrequencyData [255, 255, 255], .start, .stop,
          .paint 0 (fun _ _ => 0)]).log
        ≠ (run (specEnv ⟨Real.cos, Real.sin, Real.pi⟩)
            (Host.fresh (specEnv ⟨Real.cos, Real.sin, Real.pi⟩) 800 600)
            [.updateFrequencyData [255, 255, 255], .start, .stop]).log ∧
      (run (specEnv ⟨Real.cos, Real.sin, Real.pi⟩)
        (Host.fresh (specEnv ⟨Real.cos, Real.sin, Real.pi⟩) 800 600)
        [.updateFrequencyData [255, 255, 255], .start, .stop,
          .paint 0 (fun _ _ => 0)]).vis.rotation
        ≠ (run (specEnv ⟨Real.cos, Real.sin, Real.pi⟩)
            (Host.fresh (specEnv ⟨Real.cos, Real.sin, Real.pi⟩) 800 600)
            [.updateFrequencyData [255, 255, 255], .start, .stop]).vis.rotation := by
  refine ⟨rfl, ?_, ?_⟩
  · simp [run, step, start, stop, animate, paint, runCallbacks, frameCallback, callDrawFrame,
      drawFrame, Host.fresh, new, specEnv, updateFrequencyData, FrameTimer.shouldDrawFrame,
      FrameTimer.create]
  · norm_num [run, step, start, stop, animate, paint, runCallbacks, frameCallback,
      callDrawFrame, drawFrame, Host.fresh, new, specEnv, updateFrequencyData,
      FrameTimer.shouldDrawFrame, FrameTimer.create, analyzeFrequencyBands, bandSlice, mean]

/-- C3, amended: after `stop()` the callbacks already scheduled still run at the
next paint opportunity, each calling `drawFrame` once and scheduling nothing: the
renderer state and the operations issued are those of that many `drawFrame` calls
in a row, so a single in-flight callback whose frame the gate accepts draws and
adds `mid * 0.0001` to the rotation.  From then on, until `start()` is called,
paint opportunities (and `resize`, `stop`, `updateFrequencyData`) issue no drawing
operation, invoke no `drawFrame` and leave the rotation angle unchanged. -/
theorem stopped_quiet_after_inflight [LinearOrderedField α] [FloorRing α] (E : Env α τ σ)
    (h : Host α τ σ) (ts : α) (nows : Nat → Nat → α) (acts : List (Action α σ))
    (hq : ∀ a ∈ acts, a.isPassive = true) :
    (paint E (step E h .stop) ts nows).vis
        = drawFrames E (stop h.vis) ((List.range h.scheduled).map fun k => (ts, nows k)) ∧
      (paint E (step E h .stop) ts nows).log
        = h.log
          ++ drawFramesOps E (stop h.vis) ((List.range h.scheduled).map fun k => (ts, nows k)) ∧
      (h.scheduled = 1 → (E.shouldDrawFrame h.vis.frameTimer ts).1 = true →
        (paint E (step E h .stop) ts nows).vis.rotation
            = h.vis.rotation + (E.analyzeFrequencyBands h.vis.frequencyData).mid * 0.0001 ∧
          (paint E (step E h .stop) ts nows).log
            = h.log
              ++ (CanvasOp.setFillStyle (.color (.rgba 0 0 0 0.1))
                :: CanvasOp.fillRect 0 0 h.vis.width h.vis.height
                :: drawPrism E.math (drawFrame E (stop h.vis) ts (nows 0)).1
                    (E.analyzeFrequencyBands h.vis.frequencyData) (nows 0)) ∧
          (paint E (step E h .stop) ts nows).log ≠ h.log) ∧
      (paint E (step E h .stop) ts nows).drawFrameCalls = h.drawFrameCalls + h.scheduled ∧
      (paint E (step E h .stop) ts nows).scheduled = 0 ∧
      (paint E (step E h .stop) ts nows).vis.isRunning = false ∧
      (run E (paint E (step E h .stop) ts nows) acts).log
        = (paint E (step E h .stop) ts nows).log ∧
      (run E (paint E (step E h .stop) ts nows) acts).vis.rotation
        = (paint E (step E h .stop) ts nows).vis.rotation ∧
      (run E (paint E (step E h .stop) ts nows) acts).drawFrameCalls
        = (paint E (step E h .stop) ts nows).drawFrameCalls := by
  obtain ⟨a, b, c⟩ := paint_facts E (step E h .stop) ts nows
  obtain ⟨v, l⟩ := paint_vis_log E (step E h .stop) ts nows
  have hstop : (step E h .stop).vis.isRunning = false := rfl
  rw [hstop] at a c
  have c0 : (paint E (step E h .stop) ts nows).scheduled = 0 := by simpa using c
  obtain ⟨_, l1, r1, d1⟩ := run_of_idle E acts _ c0 hq
  refine ⟨v, l, ?_, b, c0, a, l1, r1, d1⟩
  intro h1 hg
  have hn : (step E h .stop).scheduled = 1 := h1
  have hd := drawFrame_of_accept E (stop h.vis) ts (nows 0) hg
  have hv : (paint E (step E h .stop) ts nows).vis = (drawFrame E (stop h.vis) ts (nows 0)).1 := by
    rw [v, hn]
    rfl
  have hl : (paint E (step E h .stop) ts nows).log
      = h.log ++ (drawFrame E (stop h.vis) ts (nows 0)).2 := by
    rw [l, hn]
    show h.log ++ ((drawFrame E (stop h.vis) ts (nows 0)).2 ++ []) = _
    rw [List.append_nil]
  have hops : (drawFrame E (stop h.vis) ts (nows 0)).2
      = CanvasOp.setFillStyle (.color (.rgba 0 0 0 0.1))
        :: CanvasOp.fillRect 0 0 h.vis.width h.vis.height
        :: drawPrism E.math (drawFrame E (stop h.vis) ts (nows 0)).1
            (E.analyzeFrequencyBands h.vis.frequencyData) (nows 0) := by
    rw [hd]
    rfl
  refine ⟨?_, ?_, ?_⟩
  · rw [hv, hd]
    rfl
  · rw [hl, hops]
  · rw [hl, hops]
    intro hc
    have := congrArg List.length hc
    simp at this

/-- Witness for C3 (amended): a loop fed the all-255 snapshot, started, stopped,
drained by one paint opportunity that still turns the shape by `255 * 0.0001`,
then offered two more that draw nothing. -/
theorem stopped_quiet_after_inflight_witness :
    (∀ a ∈ ([.paint 20 (fun _ _ => 20), .resize 640 480, .paint 40 (fun _ _ => 40)] :
        List (Action ℝ (List ℝ))), a.isPassive = true) ∧
      (paint (specEnv ⟨Real.cos, Real.sin, Real.pi⟩)
          (step (specEnv ⟨Real.cos, Real.sin, Real.pi⟩)
            (start (step (specEnv ⟨Real.cos, Real.sin, Real.pi⟩)
              (Host.fresh (specEnv ⟨Real.cos, Real.sin, Real.pi⟩) 800 600)
              (.updateFrequencyData [255, 255, 255]))) .stop)
          0 (fun _ _ => 0)).vis.rotation = 0.04 + 255 * 0.0001 ∧
      (run (specEnv ⟨Real.cos, Real.sin, Real.pi⟩)
        (paint (specEnv ⟨Real.cos, Real.sin, Real.pi⟩)
          (step (specEnv ⟨Real.cos, Real.sin, Real.pi⟩)
            (start (step (specEnv ⟨Real.cos, Real.sin, Real.pi⟩)
              (Host.fresh (specEnv ⟨Real.cos, Real.sin, Real.pi⟩) 800 600)
              (.updateFrequencyData [255, 255, 255]))) .stop)
          0 (fun _ _ => 0))
        [.paint 20 (fun _ _ => 20), .resize 640 480, .paint 40 (fun _ _ => 40)]).log
        = (paint (specEnv ⟨Real.cos, Real.sin, Real.pi⟩)
            (step (specEnv ⟨Real.cos, Real.sin, Real.pi⟩)
              (start (step (specEnv ⟨Real.cos, Real.sin, Real.pi⟩)
                (Host.fresh (specEnv ⟨Real.cos, Real.sin, Real.pi⟩) 800 600)
                (.updateFrequencyData [255, 255, 255]))) .stop)
            0 (fun _ _ => 0)).log := by
  have hq : ∀ a ∈ ([.paint 20 (fun _ _ => 20), .resize 640 480, .paint 40 (fun _ _ => 40)] :
      List (Action ℝ (List ℝ))), a.isPassive = true := by
    simp [Action.isPassive]
  have T := stopped_quiet_after_inflight (specEnv ⟨Real.cos, Real.sin, Real.pi⟩)
    (start (step (specEnv ⟨Real.cos, Real.sin, Real.pi⟩)
      (Host.fresh (specEnv ⟨Real.cos, Real.sin, Real.pi⟩) 800 600)
      (.updateFrequencyData [255, 255, 255]))) 0 (fun _ _ => 0) _ hq
  refine ⟨hq, ?_, T.2.2.2.2.2.2.1⟩
  rw [(T.2.2.1 rfl rfl).1]
  norm_num [start, animate, step, updateFrequencyData, Host.fresh, new, specEnv,
    analyzeFrequencyBands, bandSlice, mean]

/-- C4, as stated, fails: on a fresh renderer a second `start()` leaves two
scheduled callbacks instead of one, and the next paint opportunity invokes
`drawFrame` twice instead of once. -/
theorem start_twice_schedules_twice :
    (start (start (Host.fresh (specEnv ⟨Real.cos, Real.sin, Real.pi⟩) 800 600))).scheduled
        ≠ (start (Host.fresh (specEnv ⟨Real.cos, Real.sin, Real.pi⟩) 800 600)).scheduled ∧
      (paint (specEnv ⟨Real.cos, Real.sin, Real.pi⟩)
          (start (start (Host.fresh (specEnv ⟨Real.cos, Real.sin, Real.pi⟩) 800 600)))
          0 (fun _ _ => 0)).drawFrameCalls
        ≠ (paint (specEnv ⟨Real.cos, Real.sin, Real.pi⟩)
            (start (Host.fresh (specEnv ⟨Real.cos, Real.sin, Real.pi⟩) 800 600))
            0 (fun _ _ => 0)).drawFrameCalls := by
  constructor
  · simp [start, animate, Host.fresh]
  · rw [(paint_facts _ _ _ _).2.1, (paint_facts _ _ _ _).2.1]
    simp [start, animate, Host.fresh]

/-- C4, amended: a second `start()` leaves the renderer fields, the running
flag among them, and the issued drawing operations as the first one left them,
but schedules one more frame callback.  Whatever happens next short of `start()`
and `stop()`, the extra callback stays scheduled, and every later paint
opportunity invokes `drawFrame` once per scheduled callback: one more time after
two `start()` calls than after one. -/
theorem start_twice_same_flag_one_more_callback [LinearOrderedField α] [FloorRing α]
    (E : Env α τ σ) (h : Host α τ σ) (acts : List (Action α σ)) (ts : α)
    (nows : Nat → Nat → α) (hk : ∀ a ∈ acts, a.isLifecycle = false) :
    (start (start h)).vis = (start h).vis ∧ (start h).vis.isRunning = true ∧
      (start (start h)).log = (start h).log ∧
      (start h).scheduled = h.scheduled + 1 ∧
      (start (start h)).scheduled = h.scheduled + 2 ∧
      (run E (start h) acts).scheduled = h.scheduled + 1 ∧
      (run E (start (start h)) acts).scheduled = h.scheduled + 2 ∧
      (paint E (run E (start h) acts) ts nows).drawFrameCalls
        = (run E (start h) acts).drawFrameCalls + (h.scheduled + 1) ∧
      (paint E (run E (start (start h)) acts) ts nows).drawFrameCalls
        = (run E (start (start h)) acts).drawFrameCalls + (h.scheduled + 2) ∧
      (paint E (run E (start h) acts) ts nows).scheduled = h.scheduled + 1 ∧
      (paint E (run E (start (start h)) acts) ts nows).scheduled = h.scheduled + 2 := by
  have h1 : (start h).vis.isRunning = true := by simp [start, animate]
  have h2 : (start (start h)).vis.isRunning = true := by simp [start, animate]
  have s1 : (start h).scheduled = h.scheduled + 1 := by simp [start, animate]
  have s2 : (start (start h)).scheduled = h.scheduled + 2 := by simp [start, animate]
  obtain ⟨r1, k1⟩ := run_keeps_loop E acts (start h) h1 hk
  obtain ⟨r2, k2⟩ := run_keeps_loop E acts (start (start h)) h2 hk
  obtain ⟨_, b, c⟩ := paint_facts E (run E (start h) acts) ts nows
  obtain ⟨_, b', c'⟩ := paint_facts E (run E (start (start h)) acts) ts nows
  rw [r1, k1, s1] at c
  rw [r2, k2, s2] at c'
  rw [k1, s1] at b
  rw [k2, s2] at b'
  exact ⟨by simp [start, animate], h1, by simp [start, animate], s1, s2, k1.trans s1,
    k2.trans s2, b, b', by simpa using c, by simpa using c'⟩

/-- Witness for C4 (amended): on a fresh renderer started twice, the third paint
opportunity still finds two scheduled callbacks. -/
theorem start_twice_same_flag_one_more_callback_witness :
    (∀ a ∈ ([.paint 0 (fun _ _ => 0), .updateFrequencyData [255, 255, 255],
        .paint 20 (fun _ _ => 20)] : List (Action ℝ (List ℝ))), a.isLifecycle = false) ∧
      (paint (specEnv ⟨Real.cos, Real.sin, Real.pi⟩)
        (run (specEnv ⟨Real.cos, Real.sin, Real.pi⟩)
          (start (start (Host.fresh (specEnv ⟨Real.cos, Real.sin, Real.pi⟩) 800 600)))
          [.paint 0 (fun _ _ => 0), .updateFrequencyData [255, 255, 255],
            .paint 20 (fun _ _ => 20)])
        40 (fun _ _ => 40)).drawFrameCalls
        = (run (specEnv ⟨Real.cos, Real.sin, Real.pi⟩)
            (start (start (Host.fresh (specEnv ⟨Real.cos, Real.sin, Real.pi⟩) 800 600)))
            [.paint 0 (fun _ _ => 0), .updateFrequencyData [255, 255, 255],
              .paint 20 (fun _ _ => 20)]).drawFrameCalls + (0 + 2) :=
  have hk : ∀ a ∈ ([.paint 0 (fun _ _ => 0), .updateFrequencyData [255, 255, 255],
      .paint 20 (fun _ _ => 20)] : List (Action ℝ (List ℝ))), a.isLifecycle = false := by
    simp [Action.isLifecycle]
  ⟨hk, (start_twice_same_flag_one_more_callback (specEnv ⟨Real.cos, Real.sin, Real.pi⟩)
      (Host.fresh (specEnv ⟨Real.cos, Real.sin, Real.pi⟩) 800 600) _ 40 (fun _ _ => 40)
      hk).2.2.2.2.2.2.2.2.1⟩

/-- C5, as stated, fails: the constructor leaves the running flag set. -/
theorem new_isRunning_not_false :
    (new (specEnv ⟨Real.cos, Real.sin, Real.pi⟩) 800 600).isRunning ≠ false := by
  simp [new]

/-- C5, amended: the constructor leaves the running flag true with no frame
callback scheduled, so until `start()` is called paint opportunities (and
`resize`, `stop`, `updateFrequencyData`) draw nothing and leave the rotation at
0.04; among the operations it is `start()` alone that sets the flag to true. -/
theorem new_flag_set_loop_idle [LinearOrderedField α] [FloorRing α] (E : Env α τ σ)
    (w ht : α) (acts : List (Action α σ)) (hq : ∀ a ∈ acts, a.isPassive = true) :
    (new E w ht).isRunning = true ∧ (Host.fresh E w ht).scheduled = 0 ∧
      (run E (Host.fresh E w ht) acts).log = [] ∧
      (run E (Host.fresh E w ht) acts).scheduled = 0 ∧
      (run E (Host.fresh E w ht) acts).drawFrameCalls = 0 ∧
      (run E (Host.fresh E w ht) acts).vis.rotation = 0.04 ∧
      (∀ (g : Host α τ σ) (a : Action α σ), (step E g a).vis.isRunning =
        match a with
        | .start => true
        | .stop => false
        | _ => g.vis.isRunning) := by
  obtain ⟨a, l, r, d⟩ := run_of_idle E acts (Host.fresh E w ht) rfl hq
  refine ⟨rfl, rfl, l, a, d, r, ?_⟩
  intro g act
  cases act with
  | resize w1 h1 => rfl
  | start => simp [step, start, animate]
  | stop => rfl
  | updateFrequencyData d => rfl
  | drawFrame ts now => exact drawFrame_isRunning E g.vis ts now
  | paint ts nows => exact (paint_facts E g ts nows).1

/-- Witness for C5 (amended): paint opportunities offered to a fresh renderer
that was never started. -/
theorem new_flag_set_loop_idle_witness :
    (∀ a ∈ ([.paint 0 (fun _ _ => 0), .updateFrequencyData [255, 255, 255],
        .paint 20 (fun _ _ => 20)] : List (Action ℝ (List ℝ))), a.isPassive = true) ∧
      (run (specEnv ⟨Real.cos, Real.sin, Real.pi⟩)
        (Host.fresh (specEnv ⟨Real.cos, Real.sin, Real.pi⟩) 800 600)
        [.paint 0 (fun _ _ => 0), .updateFrequencyData [255, 255, 255],
          .paint 20 (fun _ _ => 20)]).log = [] :=
  have hq : ∀ a ∈ ([.paint 0 (fun _ _ => 0), .updateFrequencyData [255, 255, 255],
      .paint 20 (fun _ _ => 20)] : List (Action ℝ (List ℝ))), a.isPassive = true := by
    simp [Action.isPassive]
  ⟨hq, (new_flag_set_loop_idle (specEnv ⟨Real.cos, Real.sin, Real.pi⟩) 800 600 _ hq).2.2.1⟩

end Claims

end Visualizer
